import Mathlib

/-!
Verification of the Samstraumr diagram-generation scripts
(`bin/c4_diagrams.py` and `bin/port_interfaces_diagram.py`).

The two scripts are embedded shallowly:
* printing is modelled by returning a `List String` of messages, in print order;
* the external `diagrams` rendering library is modelled by an `Env` record
  holding the import-time availability flag `diagrams_available` and a render
  oracle `render : String → Option String` mapping the output-file path of a
  diagram to `none` (the `with Diagram(...)` block completes normally) or
  `some e` (the block raises an exception whose message is `e`);
* the filesystem is modelled as the list of existing directories, a directory
  being its list of path components; `Path.mkdir(parents=True, exist_ok=True)`
  becomes `mkdir_parents`;
* `argparse` flag validation is modelled by `parse_argsA` / `parse_argsB`:
  a value outside the declared `choices` makes the parser exit with status 2.
-/

namespace Samstraumr

/-- The rendering environment: the import-time flag `diagrams_available`
and an oracle giving, for each output-file path, the outcome of the
`with Diagram(...)` block (`none` = success, `some e` = exception `e`). -/
structure Env where
  diagrams_available : Bool
  render : String → Option String

/-- `str(Path(dir) / file)`: the output directory joined with a file name. -/
def joinPath (dir : List String) (file : String) : String :=
  String.intercalate "/" dir ++ "/" ++ file

theorem joinPath_ne_empty (d : List String) (f : String) : joinPath d f ≠ "" := by
  intro h
  have hl := congrArg String.length h
  rw [joinPath, String.length_append, String.length_append] at hl
  have h1 : ("/" : String).length = 1 := rfl
  have h0 : ("" : String).length = 0 := rfl
  rw [h1, h0] at hl
  omega

/-- All non-empty prefixes of a path: the directories
`Path(p).mkdir(parents=True, exist_ok=True)` has to create. -/
def prefixes (p : List String) : List (List String) :=
  (List.range p.length).map (fun i => p.take (i + 1))

/-- `Path(p).mkdir(parents=True, exist_ok=True)`: create the directory and
every missing ancestor, leaving directories that already exist untouched. -/
def mkdir_parents (fs : List (List String)) (p : List String) : List (List String) :=
  (prefixes p).foldl (fun acc d => if d ∈ acc then acc else acc ++ [d]) fs

theorem mem_foldl_mkdir_of_mem (ds : List (List String)) (acc : List (List String))
    (x : List String) (hx : x ∈ acc) :
    x ∈ ds.foldl (fun acc d => if d ∈ acc then acc else acc ++ [d]) acc := by
  induction ds generalizing acc with
  | nil => exact hx
  | cons d ds ih =>
    simp only [List.foldl_cons]
    apply ih
    by_cases hd : d ∈ acc
    · simpa [hd]
    · simp [hd, List.mem_append]
      left; exact hx

theorem mem_foldl_mkdir_of_mem_list (ds : List (List String)) (acc : List (List String))
    (x : List String) (hx : x ∈ ds) :
    x ∈ ds.foldl (fun acc d => if d ∈ acc then acc else acc ++ [d]) acc := by
  induction ds generalizing acc with
  | nil => cases hx
  | cons d ds ih =>
    rw [List.mem_cons] at hx
    simp only [List.foldl_cons]
    rcases hx with rfl | hx
    · apply mem_foldl_mkdir_of_mem
      by_cases hd : x ∈ acc
      · simp [hd]
      · simp [hd]
    · exact ih _ hx

theorem foldl_mkdir_of_all_mem (ds : List (List String)) (acc : List (List String))
    (h : ∀ d ∈ ds, d ∈ acc) :
    ds.foldl (fun acc d => if d ∈ acc then acc else acc ++ [d]) acc = acc := by
  induction ds with
  | nil => rfl
  | cons d ds ih =>
    have hd : d ∈ acc := h d (by simp)
    simp only [List.foldl_cons, if_pos hd]
    exact ih (fun x hx => h x (by simp [hx]))

theorem mem_mkdir_parents_of_mem (fs : List (List String)) (p x : List String)
    (hx : x ∈ fs) : x ∈ mkdir_parents fs p :=
  mem_foldl_mkdir_of_mem _ _ _ hx

theorem prefix_mem_mkdir_parents (fs : List (List String)) (p d : List String)
    (hd : d ∈ prefixes p) : d ∈ mkdir_parents fs p :=
  mem_foldl_mkdir_of_mem_list _ _ _ hd

theorem mkdir_parents_idem (fs : List (List String)) (p : List String) :
    mkdir_parents (mkdir_parents fs p) p = mkdir_parents fs p :=
  foldl_mkdir_of_all_mem _ _ (fun d hd => prefix_mem_mkdir_parents fs p d hd)

/-- The per-diagram-method pattern shared by all nine generation methods:
if the library is unavailable, print the library-not-available message and
return `""`; otherwise run the `with Diagram(...)` block (the render oracle
keyed by the output file), print the confirmation naming the path and return
the path on success, or print the failure message carrying the exception's
message and return `""` on failure. -/
def run_diagram (env : Env) (unavailable_label ok_label fail_label : String)
    (output_file : String) : String × List String :=
  if env.diagrams_available = false then
    ("", ["Diagrams library not available. Cannot generate " ++ unavailable_label ++ " diagram."])
  else
    match env.render output_file with
    | none => (output_file, ["Generated " ++ ok_label ++ " diagram: " ++ output_file])
    | some e => ("", ["Failed to generate " ++ fail_label ++ " diagram: " ++ e])

/-- `C4DiagramGenerator` (from `bin/c4_diagrams.py`): normalized output
format and output directory. -/
structure C4DiagramGenerator where
  output_format : String
  output_dir : List String

/-- ASCII lowercasing, modelling Python's `str.lower()` on the option
strings this program compares (the core `String.toLower` is opaque to the
kernel, so the map is spelled out). -/
def str_lower (s : String) : String :=
  String.mk (s.data.map (fun c => if c.isUpper then Char.ofNat (c.toNat + 32) else c))

/-- Output-format normalization shared by both constructors: lowercase the
request; if the result is outside {png, svg, pdf}, print one warning naming
the rejected value and substitute the script's default. -/
def normalize_output_format (requested default : String) : String × List String :=
  let f := str_lower requested
  if f = "png" ∨ f = "svg" ∨ f = "pdf" then (f, [])
  else (default, ["Unsupported output format: " ++ requested ++ ", defaulting to " ++ default])

/-- Detail-level normalization in `PortInterfaceDiagramGenerator.__init__`. -/
def normalize_detail_level (requested : String) : String × List String :=
  let d := str_lower requested
  if d = "low" ∨ d = "medium" ∨ d = "high" then (d, [])
  else ("medium", ["Unsupported detail level: " ++ requested ++ ", defaulting to medium"])

/-- Result of running a constructor: the generator, the filesystem after
`mkdir(parents=True, exist_ok=True)`, and the warnings printed. -/
structure InitResultA where
  gen : C4DiagramGenerator
  fs : List (List String)
  warnings : List String

/-- `C4DiagramGenerator.__init__`. -/
def C4DiagramGenerator.init (fs : List (List String)) (output_dir : List String)
    (output_format : String) : InitResultA :=
  let n := normalize_output_format output_format "png"
  { gen := { output_format := n.1, output_dir := output_dir }
  , fs := mkdir_parents fs output_dir
  , warnings := n.2 }

/-- Output-file path for a diagram stem: `output_dir / (stem + "." + format)`. -/
def C4DiagramGenerator.output_path (g : C4DiagramGenerator) (stem : String) : String :=
  joinPath g.output_dir (stem ++ "." ++ g.output_format)

def C4DiagramGenerator.generate_context_diagram (g : C4DiagramGenerator) (env : Env) :
    String × List String :=
  run_diagram env "context" "context" "context" (g.output_path "samstraumr_context_diagram")

def C4DiagramGenerator.generate_container_diagram (g : C4DiagramGenerator) (env : Env) :
    String × List String :=
  run_diagram env "container" "container" "container" (g.output_path "samstraumr_container_diagram")

def C4DiagramGenerator.generate_component_diagram (g : C4DiagramGenerator) (env : Env) :
    String × List String :=
  run_diagram env "component" "component" "component" (g.output_path "samstraumr_component_diagram")

def C4DiagramGenerator.generate_code_diagram (g : C4DiagramGenerator) (env : Env) :
    String × List String :=
  run_diagram env "code" "code" "code" (g.output_path "samstraumr_code_diagram")

def C4DiagramGenerator.generate_clean_architecture_diagram (g : C4DiagramGenerator) (env : Env) :
    String × List String :=
  run_diagram env "clean architecture" "clean architecture" "clean architecture"
    (g.output_path "samstraumr_clean_architecture_diagram")

/-- `C4DiagramGenerator.generate_all`: run the five methods in order and
collect the truthy (non-empty) results in invocation order. -/
def C4DiagramGenerator.generate_all (g : C4DiagramGenerator) (env : Env) :
    List String × List String :=
  let c1 := g.generate_context_diagram env
  let c2 := g.generate_container_diagram env
  let c3 := g.generate_component_diagram env
  let c4 := g.generate_code_diagram env
  let c5 := g.generate_clean_architecture_diagram env
  (([c1.1, c2.1, c3.1, c4.1, c5.1]).filter (fun s => s != ""),
   c1.2 ++ c2.2 ++ c3.2 ++ c4.2 ++ c5.2)

/-- `PortInterfaceDiagramGenerator` (from `bin/port_interfaces_diagram.py`):
normalized output format, normalized detail level, output directory. -/
structure PortInterfaceDiagramGenerator where
  output_format : String
  detail_level : String
  output_dir : List String

structure InitResultB where
  gen : PortInterfaceDiagramGenerator
  fs : List (List String)
  warnings : List String

/-- `PortInterfaceDiagramGenerator.__init__`: normalize the format (default
svg), then the detail level (default medium), then create the directory. -/
def PortInterfaceDiagramGenerator.init (fs : List (List String)) (output_dir : List String)
    (output_format detail_level : String) : InitResultB :=
  let n := normalize_output_format output_format "svg"
  let d := normalize_detail_level detail_level
  { gen := { output_format := n.1, detail_level := d.1, output_dir := output_dir }
  , fs := mkdir_parents fs output_dir
  , warnings := n.2 ++ d.2 }

def PortInterfaceDiagramGenerator.output_path (g : PortInterfaceDiagramGenerator)
    (stem : String) : String :=
  joinPath g.output_dir (stem ++ "." ++ g.output_format)

def PortInterfaceDiagramGenerator.generate_ports_component_diagram
    (g : PortInterfaceDiagramGenerator) (env : Env) : String × List String :=
  run_diagram env "component" "port interfaces component" "port interfaces component"
    (g.output_path "samstraumr_ports_component_diagram")

def PortInterfaceDiagramGenerator.generate_ports_integration_diagram
    (g : PortInterfaceDiagramGenerator) (env : Env) : String × List String :=
  run_diagram env "port integration" "port integration" "port integration"
    (g.output_path "samstraumr_ports_integration_diagram")

def PortInterfaceDiagramGenerator.generate_detailed_port_diagram
    (g : PortInterfaceDiagramGenerator) (env : Env) : String × List String :=
  run_diagram env "detailed port" "detailed port" "detailed port"
    (g.output_path "samstraumr_detailed_ports_diagram")

def PortInterfaceDiagramGenerator.generate_clean_architecture_ports_diagram
    (g : PortInterfaceDiagramGenerator) (env : Env) : String × List String :=
  run_diagram env "Clean Architecture ports" "Clean Architecture ports"
    "Clean Architecture ports" (g.output_path "samstraumr_clean_arch_ports_diagram")

/-- `PortInterfaceDiagramGenerator.generate_all`: run the four methods in
order and collect the truthy (non-empty) results in invocation order. -/
def PortInterfaceDiagramGenerator.generate_all (g : PortInterfaceDiagramGenerator)
    (env : Env) : List String × List String :=
  let c1 := g.generate_ports_component_diagram env
  let c2 := g.generate_ports_integration_diagram env
  let c3 := g.generate_detailed_port_diagram env
  let c4 := g.generate_clean_architecture_ports_diagram env
  (([c1.1, c2.1, c3.1, c4.1]).filter (fun s => s != ""),
   c1.2 ++ c2.2 ++ c3.2 ++ c4.2)

/-!
The diagram specification constructed by
`PortInterfaceDiagramGenerator.generate_detailed_port_diagram`
(`bin/port_interfaces_diagram.py`, lines 286-353), made explicit as data:
the nested `with Cluster(...)` blocks become a tree of `Elem`s and the
`<<` statements become directed edges `(source label, target label)`
(`a << b` draws an edge from `b` to `a`).
-/

/-- One element of a diagram body: a typed, labeled node, or a named
(possibly nested) cluster with an optional layout direction. -/
inductive Elem where
  | node (icon : String) (label : String)
  | cluster (name : String) (dir : Option String) (children : List Elem)

/-- A `with Cluster("Methods", direction="LR")` block holding one `Java`
node per method name. -/
def methodsCluster (ms : List String) : Elem :=
  Elem.cluster "Methods" (some "LR") (ms.map (fun m => Elem.node "Java" m))

/-- The `Core Port Interfaces` cluster: five port sub-clusters, each with
the port's `Java` node and its `Methods` cluster. -/
def corePortInterfaces : Elem :=
  Elem.cluster "Core Port Interfaces" none
    [ Elem.cluster "NotificationPort" none
        [ Elem.node "Java" "NotificationPort"
        , methodsCluster ["send()", "sendBatch()", "sendAsync()", "register()", "checkStatus()"] ]
    , Elem.cluster "CachePort" none
        [ Elem.node "Java" "CachePort"
        , methodsCluster ["get()", "put()", "remove()", "clear()", "contains()"] ]
    , Elem.cluster "FileSystemPort" none
        [ Elem.node "Java" "FileSystemPort"
        , methodsCluster ["readFile()", "writeFile()", "deleteFile()", "listFiles()", "fileExists()"] ]
    , Elem.cluster "ValidationPort" none
        [ Elem.node "Java" "ValidationPort"
        , methodsCluster ["validate()", "validateAll()", "getViolations()", "isValid()"] ]
    , Elem.cluster "PersistencePort" none
        [ Elem.node "Java" "PersistencePort"
        , methodsCluster ["save()", "find()", "delete()", "query()", "transaction()"] ] ]

/-- The `Standard Implementations` cluster added only at detail level
`high`: the five adapter nodes. -/
def standardImplementations : Elem :=
  Elem.cluster "Standard Implementations" none
    [ Elem.node "Java" "NotificationAdapter"
    , Elem.node "Java" "InMemoryCacheAdapter"
    , Elem.node "Java" "StandardFileSystemAdapter"
    , Elem.node "Java" "ValidationAdapter"
    , Elem.node "Java" "InMemoryPersistenceAdapter" ]

/-- The five `port << adapter` statements of the `high` branch, as edges
from the adapter node to the port node. -/
def implementationEdges : List (String × String) :=
  [ ("NotificationAdapter", "NotificationPort")
  , ("InMemoryCacheAdapter", "CachePort")
  , ("StandardFileSystemAdapter", "FileSystemPort")
  , ("ValidationAdapter", "ValidationPort")
  , ("InMemoryPersistenceAdapter", "PersistencePort") ]

/-- Body of the detailed-port diagram for a given detail level: the core
cluster always, the `Standard Implementations` cluster only when the
detail level equals `"high"`. -/
def detailedPortBody (detail_level : String) : List Elem :=
  [corePortInterfaces] ++
    (if detail_level = "high" then [standardImplementations] else [])

/-- Edges of the detailed-port diagram: only the `high` branch adds any. -/
def detailedPortEdges (detail_level : String) : List (String × String) :=
  if detail_level = "high" then implementationEdges else []

/-- A diagram specification: the `Diagram(...)` keyword arguments plus the
constructed body and edges. -/
structure DiagramSpec where
  title : String
  filename : String
  outformat : String
  direction : Option String
  body : List Elem
  edges : List (String × String)

/-- The full specification constructed by `generate_detailed_port_diagram`
before rendering. -/
def detailedPortSpec (g : PortInterfaceDiagramGenerator) : DiagramSpec :=
  { title := "Samstraumr Detailed Port Interfaces"
  , filename := joinPath g.output_dir "samstraumr_detailed_ports_diagram"
  , outformat := g.output_format
  , direction := some "TB"
  , body := detailedPortBody g.detail_level
  , edges := detailedPortEdges g.detail_level }

mutual
/-- Whether an element is, or contains, a cluster named `target`. -/
def hasGroupElem (target : String) : Elem → Bool
  | Elem.node _ _ => false
  | Elem.cluster n _ cs => n == target || hasGroupList target cs

/-- Whether some element of the list is, or contains, a cluster named `target`. -/
def hasGroupList (target : String) : List Elem → Bool
  | [] => false
  | e :: es => hasGroupElem target e || hasGroupList target es
end

mutual
/-- All node labels occurring in an element, at any nesting depth. -/
def nodeLabelsElem : Elem → List String
  | Elem.node _ l => [l]
  | Elem.cluster _ _ cs => nodeLabelsList cs

/-- All node labels occurring in a list of elements. -/
def nodeLabelsList : List Elem → List String
  | [] => []
  | e :: es => nodeLabelsElem e ++ nodeLabelsList es
end

/-!
Command-line entry points. `argparse` is modelled at the level of supplied
option values: a flag that is absent takes its declared default, and a
supplied value outside the flag's `choices` makes the parser print a usage
error and exit the process with status 2 (standard `argparse` behavior).
The output directory is modelled, like elsewhere, as a list of path
components; `args.dir or "docs/diagrams"` becomes `getD ["docs", "diagrams"]`.
-/

def type_choicesA : List String :=
  ["context", "container", "component", "code", "clean", "port", "all"]

def output_choices : List String := ["png", "svg", "pdf"]

def detail_choices : List String := ["low", "medium", "high"]

/-- Raw command line for `c4_diagrams.py`: each optional flag's supplied
value, `none` when the flag is absent. -/
structure RawArgsA where
  type_arg : Option String
  output : Option String
  dir : Option (List String)

/-- Parsed arguments for `c4_diagrams.py`. -/
structure ArgsA where
  type_arg : String
  output : String
  dir : Option (List String)

/-- `parser.parse_args()` for `c4_diagrams.py`: validate each supplied
value against its `choices` (`none` = the parser rejects the command line),
otherwise fill in defaults (`--type all`, `--output png`). -/
def parse_argsA (raw : RawArgsA) : Option ArgsA :=
  match raw.type_arg with
  | some t =>
    if t ∈ type_choicesA then
      match raw.output with
      | some o =>
        if o ∈ output_choices then some ⟨t, o, raw.dir⟩
        else none
      | none => some ⟨t, "png", raw.dir⟩
    else none
  | none =>
    match raw.output with
    | some o =>
      if o ∈ output_choices then some ⟨"all", o, raw.dir⟩
      else none
    | none => some ⟨"all", "png", raw.dir⟩

/-- Raw command line for `port_interfaces_diagram.py`. -/
structure RawArgsB where
  output : Option String
  detail : Option String
  dir : Option (List String)

/-- Parsed arguments for `port_interfaces_diagram.py`. -/
structure ArgsB where
  output : String
  detail : String
  dir : Option (List String)

/-- `parser.parse_args()` for `port_interfaces_diagram.py`
(`--output svg`, `--detail medium` defaults). -/
def parse_argsB (raw : RawArgsB) : Option ArgsB :=
  match raw.output with
  | some o =>
    if o ∈ output_choices then
      match raw.detail with
      | some d =>
        if d ∈ detail_choices then some ⟨o, d, raw.dir⟩
        else none
      | none => some ⟨o, "medium", raw.dir⟩
    else none
  | none =>
    match raw.detail with
    | some d =>
      if d ∈ detail_choices then some ⟨"svg", d, raw.dir⟩
      else none
    | none => some ⟨"svg", "medium", raw.dir⟩

/-- Observable outcome of running a script body: the output files produced
by successful renders, every message printed, and the filesystem after. -/
structure RunResult where
  generated : List String
  messages : List String
  fs : List (List String)

/-- `main()` of `c4_diagrams.py` after argument parsing: construct the
generator (normalizing the format and creating the output directory),
then dispatch on `--type`. -/
def mainA_run (args : ArgsA) (env : Env) (fs0 : List (List String)) : RunResult :=
  let i := C4DiagramGenerator.init fs0 (args.dir.getD ["docs", "diagrams"]) args.output
  let g := i.gen
  if args.type_arg = "context" then
    let r := g.generate_context_diagram env
    ⟨if r.1 != "" then [r.1] else [], i.warnings ++ r.2, i.fs⟩
  else if args.type_arg = "container" then
    let r := g.generate_container_diagram env
    ⟨if r.1 != "" then [r.1] else [], i.warnings ++ r.2, i.fs⟩
  else if args.type_arg = "component" then
    let r := g.generate_component_diagram env
    ⟨if r.1 != "" then [r.1] else [], i.warnings ++ r.2, i.fs⟩
  else if args.type_arg = "code" then
    let r := g.generate_code_diagram env
    ⟨if r.1 != "" then [r.1] else [], i.warnings ++ r.2, i.fs⟩
  else if args.type_arg = "clean" then
    let r := g.generate_clean_architecture_diagram env
    ⟨if r.1 != "" then [r.1] else [], i.warnings ++ r.2, i.fs⟩
  else if args.type_arg = "port" then
    ⟨[], i.warnings ++ ["Port interface diagrams are generated by port_interfaces_diagram.py"], i.fs⟩
  else
    let r := g.generate_all env
    ⟨r.1, i.warnings ++ r.2, i.fs⟩

/-- `main()` of `port_interfaces_diagram.py` after argument parsing:
construct the generator, run `generate_all`, then report the count of
generated diagrams or a failure message. -/
def mainB_run (args : ArgsB) (env : Env) (fs0 : List (List String)) : RunResult :=
  let i := PortInterfaceDiagramGenerator.init fs0 (args.dir.getD ["docs", "diagrams"])
    args.output args.detail
  let r := i.gen.generate_all env
  ⟨r.1,
   i.warnings ++ r.2 ++
     (if r.1.length > 0 then
        ["Generated " ++ toString r.1.length ++ " port interface diagrams"]
      else
        ["Failed to generate port interface diagrams"]),
   i.fs⟩

/-- Full invocation of `c4_diagrams.py`: parse, then run. A rejected
command line makes `argparse` print a usage error and exit with status 2;
otherwise the script body runs to completion and the process exits 0. -/
def scriptA (raw : RawArgsA) (env : Env) (fs0 : List (List String)) : Nat × List String :=
  match parse_argsA raw with
  | none => (2, ["usage error"])
  | some args => (0, (mainA_run args env fs0).messages)

/-- Full invocation of `port_interfaces_diagram.py`. -/
def scriptB (raw : RawArgsB) (env : Env) (fs0 : List (List String)) : Nat × List String :=
  match parse_argsB raw with
  | none => (2, ["usage error"])
  | some args => (0, (mainB_run args env fs0).messages)

/-!
Theorems for the claims.
-/

/-- The error-boundary contract of one diagram method whose call produced
the result `r`: if the render oracle raises `e` at the method's output
file, the method returns `""` and prints one failure message carrying `e`;
if the oracle succeeds, the method returns the non-empty output path and
prints one confirmation message naming it. -/
def render_boundary_ok (env : Env) (r : String × List String)
    (ok_label fail_label file : String) : Prop :=
  (∀ e, env.render file = some e →
      r = ("", ["Failed to generate " ++ fail_label ++ " diagram: " ++ e])) ∧
  (env.render file = none →
      r = (file, ["Generated " ++ ok_label ++ " diagram: " ++ file]) ∧ file ≠ "")

theorem run_diagram_boundary (env : Env) (h : env.diagrams_available = true)
    (ul ol fl : String) (d : List String) (f : String) :
    render_boundary_ok env (run_diagram env ul ol fl (joinPath d f)) ol fl (joinPath d f) := by
  constructor
  · intro e he
    simp [run_diagram, h, he]
  · intro he
    exact ⟨by simp [run_diagram, h, he], joinPath_ne_empty d f⟩

/-- C1: for every diagram-generation method of either generator, when the
rendering library is available, a rendering exception is caught inside the
method, one failure message carrying the exception's message is printed and
`""` is returned; on success the method returns the non-empty output path
and prints one confirmation message naming it. -/
theorem claim_C1_render_boundary (gA : C4DiagramGenerator)
    (gB : PortInterfaceDiagramGenerator) (env : Env)
    (h : env.diagrams_available = true) :
    render_boundary_ok env (gA.generate_context_diagram env) "context" "context"
      (gA.output_path "samstraumr_context_diagram") ∧
    render_boundary_ok env (gA.generate_container_diagram env) "container" "container"
      (gA.output_path "samstraumr_container_diagram") ∧
    render_boundary_ok env (gA.generate_component_diagram env) "component" "component"
      (gA.output_path "samstraumr_component_diagram") ∧
    render_boundary_ok env (gA.generate_code_diagram env) "code" "code"
      (gA.output_path "samstraumr_code_diagram") ∧
    render_boundary_ok env (gA.generate_clean_architecture_diagram env)
      "clean architecture" "clean architecture"
      (gA.output_path "samstraumr_clean_architecture_diagram") ∧
    render_boundary_ok env (gB.generate_ports_component_diagram env)
      "port interfaces component" "port interfaces component"
      (gB.output_path "samstraumr_ports_component_diagram") ∧
    render_boundary_ok env (gB.generate_ports_integration_diagram env)
      "port integration" "port integration"
      (gB.output_path "samstraumr_ports_integration_diagram") ∧
    render_boundary_ok env (gB.generate_detailed_port_diagram env)
      "detailed port" "detailed port"
      (gB.output_path "samstraumr_detailed_ports_diagram") ∧
    render_boundary_ok env (gB.generate_clean_architecture_ports_diagram env)
      "Clean Architecture ports" "Clean Architecture ports"
      (gB.output_path "samstraumr_clean_arch_ports_diagram") := by
  refine ⟨?_, ?_, ?_, ?_, ?_, ?_, ?_, ?_, ?_⟩ <;>
    exact run_diagram_boundary env h _ _ _ _ _

/-- Witness for C1: a concrete generator in a concrete environment whose
oracle succeeds everywhere: the context method returns the output path and
prints the confirmation naming it. -/
theorem claim_C1_render_boundary_witness :
    (Env.mk true (fun _ => none)).diagrams_available = true ∧
    C4DiagramGenerator.generate_context_diagram ⟨"png", ["docs", "diagrams"]⟩
        (Env.mk true (fun _ => none)) =
      ("docs/diagrams/samstraumr_context_diagram.png",
       ["Generated context diagram: docs/diagrams/samstraumr_context_diagram.png"]) :=
  ⟨rfl,
   ((claim_C1_render_boundary ⟨"png", ["docs", "diagrams"]⟩
       ⟨"svg", "medium", ["docs", "diagrams"]⟩ (Env.mk true (fun _ => none)) rfl).1.2 rfl).1⟩

/-- C2: when the rendering library is unavailable, every single-diagram
method of both generators returns `""` after printing exactly one
library-not-available message, and each generator's `generate_all` returns
the empty list. -/
theorem claim_C2_unavailable (gA : C4DiagramGenerator)
    (gB : PortInterfaceDiagramGenerator) (env : Env)
    (h : env.diagrams_available = false) :
    gA.generate_context_diagram env =
      ("", ["Diagrams library not available. Cannot generate context diagram."]) ∧
    gA.generate_container_diagram env =
      ("", ["Diagrams library not available. Cannot generate container diagram."]) ∧
    gA.generate_component_diagram env =
      ("", ["Diagrams library not available. Cannot generate component diagram."]) ∧
    gA.generate_code_diagram env =
      ("", ["Diagrams library not available. Cannot generate code diagram."]) ∧
    gA.generate_clean_architecture_diagram env =
      ("", ["Diagrams library not available. Cannot generate clean architecture diagram."]) ∧
    gB.generate_ports_component_diagram env =
      ("", ["Diagrams library not available. Cannot generate component diagram."]) ∧
    gB.generate_ports_integration_diagram env =
      ("", ["Diagrams library not available. Cannot generate port integration diagram."]) ∧
    gB.generate_detailed_port_diagram env =
      ("", ["Diagrams library not available. Cannot generate detailed port diagram."]) ∧
    gB.generate_clean_architecture_ports_diagram env =
      ("", ["Diagrams library not available. Cannot generate Clean Architecture ports diagram."]) ∧
    gA.generate_all env =
      ([], ["Diagrams library not available. Cannot generate context diagram.",
            "Diagrams library not available. Cannot generate container diagram.",
            "Diagrams library not available. Cannot generate component diagram.",
            "Diagrams library not available. Cannot generate code diagram.",
            "Diagrams library not available. Cannot generate clean architecture diagram."]) ∧
    gB.generate_all env =
      ([], ["Diagrams library not available. Cannot generate component diagram.",
            "Diagrams library not available. Cannot generate port integration diagram.",
            "Diagrams library not available. Cannot generate detailed port diagram.",
            "Diagrams library not available. Cannot generate Clean Architecture ports diagram."]) := by
  refine ⟨?_, ?_, ?_, ?_, ?_, ?_, ?_, ?_, ?_, ?_, ?_⟩ <;>
    simp [C4DiagramGenerator.generate_all, PortInterfaceDiagramGenerator.generate_all,
      C4DiagramGenerator.generate_context_diagram, C4DiagramGenerator.generate_container_diagram,
      C4DiagramGenerator.generate_component_diagram, C4DiagramGenerator.generate_code_diagram,
      C4DiagramGenerator.generate_clean_architecture_diagram,
      PortInterfaceDiagramGenerator.generate_ports_component_diagram,
      PortInterfaceDiagramGenerator.generate_ports_integration_diagram,
      PortInterfaceDiagramGenerator.generate_detailed_port_diagram,
      PortInterfaceDiagramGenerator.generate_clean_architecture_ports_diagram,
      run_diagram, h]

/-- Witness for C2: with the flag down, a concrete generator's
`generate_all` returns the empty list and the five messages. -/
theorem claim_C2_unavailable_witness :
    (Env.mk false (fun _ => none)).diagrams_available = false ∧
    C4DiagramGenerator.generate_all ⟨"png", ["docs", "diagrams"]⟩
        (Env.mk false (fun _ => none)) =
      ([], ["Diagrams library not available. Cannot generate context diagram.",
            "Diagrams library not available. Cannot generate container diagram.",
            "Diagrams library not available. Cannot generate component diagram.",
            "Diagrams library not available. Cannot generate code diagram.",
            "Diagrams library not available. Cannot generate clean architecture diagram."]) :=
  ⟨rfl,
   ((((((((((claim_C2_unavailable ⟨"png", ["docs", "diagrams"]⟩
     ⟨"svg", "medium", ["docs", "diagrams"]⟩ (Env.mk false (fun _ => none))
     rfl).2).2).2).2).2).2).2).2).2).1⟩

theorem normalize_output_svg : normalize_output_format "svg" "svg" = ("svg", []) := rfl

theorem normalize_detail_medium : normalize_detail_level "medium" = ("medium", []) := rfl

theorem bne_empty_of_joinPath (d : List String) (f : String) :
    ((joinPath d f) != "") = true := by
  simpa [bne_iff_ne] using joinPath_ne_empty d f

/-- C3: each `generate_all` runs its methods in the fixed order and returns
exactly the non-empty results in invocation order; when every render
succeeds, script A returns exactly the 5 paths and script B exactly the 4,
in the documented order. -/
theorem claim_C3_batch_runner (gA : C4DiagramGenerator)
    (gB : PortInterfaceDiagramGenerator) (env : Env) :
    (gA.generate_all env).1 =
      ([(gA.generate_context_diagram env).1, (gA.generate_container_diagram env).1,
        (gA.generate_component_diagram env).1, (gA.generate_code_diagram env).1,
        (gA.generate_clean_architecture_diagram env).1]).filter (fun s => s != "") ∧
    (gB.generate_all env).1 =
      ([(gB.generate_ports_component_diagram env).1,
        (gB.generate_ports_integration_diagram env).1,
        (gB.generate_detailed_port_diagram env).1,
        (gB.generate_clean_architecture_ports_diagram env).1]).filter (fun s => s != "") ∧
    (env.diagrams_available = true → (∀ f, env.render f = none) →
      (gA.generate_all env).1 =
        [gA.output_path "samstraumr_context_diagram",
         gA.output_path "samstraumr_container_diagram",
         gA.output_path "samstraumr_component_diagram",
         gA.output_path "samstraumr_code_diagram",
         gA.output_path "samstraumr_clean_architecture_diagram"] ∧
      (gA.generate_all env).1.length = 5 ∧
      (gB.generate_all env).1 =
        [gB.output_path "samstraumr_ports_component_diagram",
         gB.output_path "samstraumr_ports_integration_diagram",
         gB.output_path "samstraumr_detailed_ports_diagram",
         gB.output_path "samstraumr_clean_arch_ports_diagram"] ∧
      (gB.generate_all env).1.length = 4) := by
  refine ⟨rfl, rfl, ?_⟩
  intro h hr
  refine ⟨?_, ?_, ?_, ?_⟩ <;>
    simp [C4DiagramGenerator.generate_all, PortInterfaceDiagramGenerator.generate_all,
      C4DiagramGenerator.generate_context_diagram, C4DiagramGenerator.generate_container_diagram,
      C4DiagramGenerator.generate_component_diagram, C4DiagramGenerator.generate_code_diagram,
      C4DiagramGenerator.generate_clean_architecture_diagram,
      PortInterfaceDiagramGenerator.generate_ports_component_diagram,
      PortInterfaceDiagramGenerator.generate_ports_integration_diagram,
      PortInterfaceDiagramGenerator.generate_detailed_port_diagram,
      PortInterfaceDiagramGenerator.generate_clean_architecture_ports_diagram,
      run_diagram, h, hr, C4DiagramGenerator.output_path,
      PortInterfaceDiagramGenerator.output_path, List.filter_cons, bne_empty_of_joinPath]

/-- Witness for C3: concrete generators in an all-success environment
produce 5 and 4 paths. -/
theorem claim_C3_batch_runner_witness :
    (Env.mk true (fun _ => none)).diagrams_available = true ∧
    (C4DiagramGenerator.generate_all ⟨"png", ["docs", "diagrams"]⟩
      (Env.mk true (fun _ => none))).1.length = 5 ∧
    (PortInterfaceDiagramGenerator.generate_all ⟨"svg", "medium", ["docs", "diagrams"]⟩
      (Env.mk true (fun _ => none))).1.length = 4 :=
  ⟨rfl,
   ((claim_C3_batch_runner ⟨"png", ["docs", "diagrams"]⟩
      ⟨"svg", "medium", ["docs", "diagrams"]⟩ (Env.mk true (fun _ => none))).2.2
      rfl (fun _ => rfl)).2.1,
   ((claim_C3_batch_runner ⟨"png", ["docs", "diagrams"]⟩
      ⟨"svg", "medium", ["docs", "diagrams"]⟩ (Env.mk true (fun _ => none))).2.2
      rfl (fun _ => rfl)).2.2.2⟩

theorem defaulting_append_png (s : String) :
    "Unsupported output format: " ++ s ++ ", defaulting to " ++ "png" =
      "Unsupported output format: " ++ s ++ ", defaulting to png" := by
  rw [String.append_assoc]
  rfl

theorem defaulting_append_svg (s : String) :
    "Unsupported output format: " ++ s ++ ", defaulting to " ++ "svg" =
      "Unsupported output format: " ++ s ++ ", defaulting to svg" := by
  rw [String.append_assoc]
  rfl

/-- C4: output-format normalization at construction: a requested format
whose lowercasing is outside {png, svg, pdf} is replaced by the script's
default (png for script A, svg for script B) with exactly one warning
naming the rejected value; an in-domain format is kept lowercased with no
warning. -/
theorem claim_C4_format_normalization (s : String) (fs : List (List String))
    (dirA dirB : List String) :
    (str_lower s ∈ output_choices →
      (C4DiagramGenerator.init fs dirA s).gen.output_format = str_lower s ∧
      (C4DiagramGenerator.init fs dirA s).warnings = [] ∧
      (PortInterfaceDiagramGenerator.init fs dirB s "medium").gen.output_format = str_lower s ∧
      (PortInterfaceDiagramGenerator.init fs dirB s "medium").warnings = []) ∧
    (str_lower s ∉ output_choices →
      (C4DiagramGenerator.init fs dirA s).gen.output_format = "png" ∧
      (C4DiagramGenerator.init fs dirA s).warnings =
        ["Unsupported output format: " ++ s ++ ", defaulting to png"] ∧
      (PortInterfaceDiagramGenerator.init fs dirB s "medium").gen.output_format = "svg" ∧
      (PortInterfaceDiagramGenerator.init fs dirB s "medium").warnings =
        ["Unsupported output format: " ++ s ++ ", defaulting to svg"]) := by
  constructor
  · intro hs
    have hs' : str_lower s = "png" ∨ str_lower s = "svg" ∨ str_lower s = "pdf" := by
      simpa [output_choices] using hs
    refine ⟨?_, ?_, ?_, ?_⟩ <;>
      simp [C4DiagramGenerator.init, PortInterfaceDiagramGenerator.init,
        normalize_output_format, normalize_detail_medium, hs']
  · intro hs
    have hs' : ¬(str_lower s = "png" ∨ str_lower s = "svg" ∨ str_lower s = "pdf") := by
      simpa [output_choices] using hs
    refine ⟨?_, ?_, ?_, ?_⟩ <;>
      simp [C4DiagramGenerator.init, PortInterfaceDiagramGenerator.init,
        normalize_output_format, normalize_detail_medium, hs',
        defaulting_append_png, defaulting_append_svg]

/-- Witness for C4: the rejected format `"BMP"` defaults to png with the
warning, and the accepted format `"PNG"` is kept lowercased silently. -/
theorem claim_C4_format_normalization_witness :
    (str_lower "BMP" ∉ output_choices) ∧
    (C4DiagramGenerator.init [] ["d"] "BMP").gen.output_format = "png" ∧
    (C4DiagramGenerator.init [] ["d"] "BMP").warnings =
      ["Unsupported output format: BMP, defaulting to png"] ∧
    (str_lower "PNG" ∈ output_choices) ∧
    (C4DiagramGenerator.init [] ["d"] "PNG").gen.output_format = "png" ∧
    (C4DiagramGenerator.init [] ["d"] "PNG").warnings = [] :=
  ⟨by decide,
   ((claim_C4_format_normalization "BMP" [] ["d"] ["d"]).2 (by decide)).1,
   ((claim_C4_format_normalization "BMP" [] ["d"] ["d"]).2 (by decide)).2.1,
   by decide,
   ((claim_C4_format_normalization "PNG" [] ["d"] ["d"]).1 (by decide)).1,
   ((claim_C4_format_normalization "PNG" [] ["d"] ["d"]).1 (by decide)).2.1⟩

/-- C5: detail-level normalization at construction of the port-interface
generator: a level whose lowercasing is outside {low, medium, high} is
replaced by medium with exactly one warning naming the rejected value; an
in-domain level is kept lowercased with no warning. -/
theorem claim_C5_detail_normalization (s : String) (fs : List (List String))
    (dir : List String) :
    (str_lower s ∈ detail_choices →
      (PortInterfaceDiagramGenerator.init fs dir "svg" s).gen.detail_level = str_lower s ∧
      (PortInterfaceDiagramGenerator.init fs dir "svg" s).warnings = []) ∧
    (str_lower s ∉ detail_choices →
      (PortInterfaceDiagramGenerator.init fs dir "svg" s).gen.detail_level = "medium" ∧
      (PortInterfaceDiagramGenerator.init fs dir "svg" s).warnings =
        ["Unsupported detail level: " ++ s ++ ", defaulting to medium"]) := by
  constructor
  · intro hs
    have hs' : str_lower s = "low" ∨ str_lower s = "medium" ∨ str_lower s = "high" := by
      simpa [detail_choices] using hs
    refine ⟨?_, ?_⟩ <;>
      simp [PortInterfaceDiagramGenerator.init, normalize_detail_level,
        normalize_output_svg, hs']
  · intro hs
    have hs' : ¬(str_lower s = "low" ∨ str_lower s = "medium" ∨ str_lower s = "high") := by
      simpa [detail_choices] using hs
    refine ⟨?_, ?_⟩ <;>
      simp [PortInterfaceDiagramGenerator.init, normalize_detail_level,
        normalize_output_svg, hs']

/-- Witness for C5: the rejected level `"extreme"` defaults to medium with
the warning, and the accepted level `"HIGH"` is kept lowercased silently. -/
theorem claim_C5_detail_normalization_witness :
    (str_lower "extreme" ∉ detail_choices) ∧
    (PortInterfaceDiagramGenerator.init [] ["d"] "svg" "extreme").gen.detail_level = "medium" ∧
    (PortInterfaceDiagramGenerator.init [] ["d"] "svg" "extreme").warnings =
      ["Unsupported detail level: extreme, defaulting to medium"] ∧
    (str_lower "HIGH" ∈ detail_choices) ∧
    (PortInterfaceDiagramGenerator.init [] ["d"] "svg" "HIGH").gen.detail_level = "high" ∧
    (PortInterfaceDiagramGenerator.init [] ["d"] "svg" "HIGH").warnings = [] :=
  ⟨by decide,
   ((claim_C5_detail_normalization "extreme" [] ["d"]).2 (by decide)).1,
   ((claim_C5_detail_normalization "extreme" [] ["d"]).2 (by decide)).2,
   by decide,
   ((claim_C5_detail_normalization "HIGH" [] ["d"]).1 (by decide)).1,
   ((claim_C5_detail_normalization "HIGH" [] ["d"]).1 (by decide)).2⟩

/-- C6: the detailed-port diagram's constructed specification contains the
`Standard Implementations` node group exactly when the generator's detail
level is `"high"`; that group holds the five adapter nodes and the five
edges connect them to port-interface nodes of the core body; at `"low"` or
`"medium"` the group and the edges are absent, and no other part of the
specification (title, filename, format, direction, remaining body) depends
on the detail level. -/
theorem claim_C6_standard_implementations (g : PortInterfaceDiagramGenerator) :
    (hasGroupList "Standard Implementations" (detailedPortSpec g).body = true ↔
      g.detail_level = "high") ∧
    (g.detail_level = "high" →
      (detailedPortSpec g).body = [corePortInterfaces, standardImplementations] ∧
      (detailedPortSpec g).edges = implementationEdges) ∧
    (g.detail_level ≠ "high" →
      (detailedPortSpec g).body = [corePortInterfaces] ∧
      (detailedPortSpec g).edges = []) ∧
    (nodeLabelsElem standardImplementations).length = 5 ∧
    implementationEdges.length = 5 ∧
    (∀ p ∈ implementationEdges,
      p.1 ∈ nodeLabelsElem standardImplementations ∧
      p.2 ∈ nodeLabelsElem corePortInterfaces) ∧
    (∀ dl : String,
      (detailedPortSpec { g with detail_level := dl }).title = (detailedPortSpec g).title ∧
      (detailedPortSpec { g with detail_level := dl }).filename = (detailedPortSpec g).filename ∧
      (detailedPortSpec { g with detail_level := dl }).outformat = (detailedPortSpec g).outformat ∧
      (detailedPortSpec { g with detail_level := dl }).direction = (detailedPortSpec g).direction) := by
  refine ⟨?_, ?_, ?_, ?_, ?_, ?_, ?_⟩
  · by_cases hdl : g.detail_level = "high"
    · simp only [detailedPortSpec, detailedPortBody, hdl, if_pos]
      constructor
      · intro _; trivial
      · intro _; decide
    · simp only [detailedPortSpec, detailedPortBody, if_neg hdl, List.append_nil]
      constructor
      · intro hgrp; exact absurd hgrp (by decide)
      · intro hc; exact absurd hc hdl
  · intro hdl
    simp [detailedPortSpec, detailedPortBody, detailedPortEdges, hdl]
  · intro hdl
    simp [detailedPortSpec, detailedPortBody, detailedPortEdges, hdl]
  · decide
  · decide
  · decide
  · intro dl
    exact ⟨rfl, rfl, rfl, rfl⟩

/-- Witness for C6: at detail level high the group is present with its five
edges; at medium (≠ high) the body is just the core cluster and there are
no edges. -/
theorem claim_C6_standard_implementations_witness :
    hasGroupList "Standard Implementations"
      (detailedPortSpec ⟨"svg", "high", ["docs", "diagrams"]⟩).body = true ∧
    (detailedPortSpec ⟨"svg", "high", ["docs", "diagrams"]⟩).edges = implementationEdges ∧
    ("medium" : String) ≠ "high" ∧
    (detailedPortSpec ⟨"svg", "medium", ["docs", "diagrams"]⟩).body = [corePortInterfaces] ∧
    (detailedPortSpec ⟨"svg", "medium", ["docs", "diagrams"]⟩).edges = [] :=
  ⟨(claim_C6_standard_implementations ⟨"svg", "high", ["docs", "diagrams"]⟩).1.mpr rfl,
   ((claim_C6_standard_implementations ⟨"svg", "high", ["docs", "diagrams"]⟩).2.1 rfl).2,
   by decide,
   ((claim_C6_standard_implementations ⟨"svg", "medium", ["docs", "diagrams"]⟩).2.2.1
     (by decide)).1,
   ((claim_C6_standard_implementations ⟨"svg", "medium", ["docs", "diagrams"]⟩).2.2.1
     (by decide)).2⟩

/-- C7: selecting diagram type `"port"` on script A generates nothing —
no diagram method runs, the result is independent of the rendering
environment — and prints exactly one message (after any construction
warnings) redirecting to the port-interface script. -/
theorem claim_C7_port_redirect (args : ArgsA) (env : Env) (fs0 : List (List String))
    (h : args.type_arg = "port") :
    (mainA_run args env fs0).generated = [] ∧
    (mainA_run args env fs0).messages =
      (C4DiagramGenerator.init fs0 (args.dir.getD ["docs", "diagrams"]) args.output).warnings ++
        ["Port interface diagrams are generated by port_interfaces_diagram.py"] := by
  constructor <;> simp [mainA_run, h]

/-- Witness for C7: a concrete `--type port` invocation prints only the
redirect message and generates nothing. -/
theorem claim_C7_port_redirect_witness :
    (mainA_run ⟨"port", "png", none⟩ (Env.mk true (fun _ => none)) []).generated = [] ∧
    (mainA_run ⟨"port", "png", none⟩ (Env.mk true (fun _ => none)) []).messages =
      ["Port interface diagrams are generated by port_interfaces_diagram.py"] := by
  have h := claim_C7_port_redirect ⟨"port", "png", none⟩ (Env.mk true (fun _ => none)) [] rfl
  refine ⟨h.1, ?_⟩
  rw [h.2]
  rfl

/-- C8 counterexample: the claim requires a failure message to be reported
after script A's Batch Runner returns an empty list. Running script A with
`--type all` and the rendering library unavailable, the batch result is
empty yet the full printed output is exactly the five per-diagram
library-not-available messages printed inside the methods — `main` reports
nothing after the batch returns, so no failure (or count) report exists. -/
theorem claim_C8_counterexample :
    (mainA_run ⟨"all", "png", none⟩ (Env.mk false (fun _ => none)) []).generated = [] ∧
    (mainA_run ⟨"all", "png", none⟩ (Env.mk false (fun _ => none)) []).messages =
      ["Diagrams library not available. Cannot generate context diagram.",
       "Diagrams library not available. Cannot generate container diagram.",
       "Diagrams library not available. Cannot generate component diagram.",
       "Diagrams library not available. Cannot generate code diagram.",
       "Diagrams library not available. Cannot generate clean architecture diagram."] :=
  ⟨rfl, rfl⟩

/-- C8 amended: script B's entry point appends, after its batch's own
messages, a count report when the batch list is non-empty and a failure
message when it is empty; script A's entry point appends nothing after its
batch — it discards the `generate_all` result and reports neither a count
nor a failure. -/
theorem claim_C8_batch_reporting (argsA : ArgsA) (argsB : ArgsB) (env : Env)
    (fs0 : List (List String)) (hA : argsA.type_arg = "all") :
    (mainB_run argsB env fs0).messages =
      (PortInterfaceDiagramGenerator.init fs0 (argsB.dir.getD ["docs", "diagrams"])
          argsB.output argsB.detail).warnings ++
        ((PortInterfaceDiagramGenerator.init fs0 (argsB.dir.getD ["docs", "diagrams"])
          argsB.output argsB.detail).gen.generate_all env).2 ++
        (if ((PortInterfaceDiagramGenerator.init fs0 (argsB.dir.getD ["docs", "diagrams"])
              argsB.output argsB.detail).gen.generate_all env).1.length > 0 then
           ["Generated " ++
              toString ((PortInterfaceDiagramGenerator.init fs0
                (argsB.dir.getD ["docs", "diagrams"])
                argsB.output argsB.detail).gen.generate_all env).1.length ++
              " port interface diagrams"]
         else ["Failed to generate port interface diagrams"]) ∧
    (mainA_run argsA env fs0).messages =
      (C4DiagramGenerator.init fs0 (argsA.dir.getD ["docs", "diagrams"])
          argsA.output).warnings ++
        ((C4DiagramGenerator.init fs0 (argsA.dir.getD ["docs", "diagrams"])
          argsA.output).gen.generate_all env).2 := by
  constructor
  · rfl
  · simp [mainA_run, hA]

/-- Witness for C8's amended claim: a concrete unavailable-library run of
script B ends with the failure report; an all-success run ends with the
count report naming 4. -/
theorem claim_C8_batch_reporting_witness :
    (mainB_run ⟨"svg", "medium", none⟩ (Env.mk false (fun _ => none)) []).messages =
      ["Diagrams library not available. Cannot generate component diagram.",
       "Diagrams library not available. Cannot generate port integration diagram.",
       "Diagrams library not available. Cannot generate detailed port diagram.",
       "Diagrams library not available. Cannot generate Clean Architecture ports diagram.",
       "Failed to generate port interface diagrams"] ∧
    (mainA_run ⟨"all", "png", none⟩ (Env.mk false (fun _ => none)) []).messages =
      ["Diagrams library not available. Cannot generate context diagram.",
       "Diagrams library not available. Cannot generate container diagram.",
       "Diagrams library not available. Cannot generate component diagram.",
       "Diagrams library not available. Cannot generate code diagram.",
       "Diagrams library not available. Cannot generate clean architecture diagram."] := by
  have h := claim_C8_batch_reporting ⟨"all", "png", none⟩ ⟨"svg", "medium", none⟩
    (Env.mk false (fun _ => none)) [] rfl
  refine ⟨?_, ?_⟩
  · rw [h.1]; rfl
  · rw [h.2]; rfl

/-- C9 counterexample: invoking script A with the invalid flag value
`--type bogus` makes the argument parser reject the command line and the
process exit with status 2, not 0. -/
theorem claim_C9_counterexample :
    (scriptA ⟨some "bogus", none, none⟩ (Env.mk true (fun _ => none)) []).1 = 2 := rfl

/-- C9 amended: every invocation whose flag values are accepted by the
argument parser exits with status 0, whatever the rendering environment —
a missing library or a rendering failure never changes the exit status;
a rejected flag value exits with status 2, so every invocation exits with
either 0 or 2. -/
theorem claim_C9_exit_codes (env : Env) (fs0 : List (List String)) :
    (∀ rawA argsA, parse_argsA rawA = some argsA → (scriptA rawA env fs0).1 = 0) ∧
    (∀ rawB argsB, parse_argsB rawB = some argsB → (scriptB rawB env fs0).1 = 0) ∧
    (∀ rawA, parse_argsA rawA = none → (scriptA rawA env fs0).1 = 2) ∧
    (∀ rawB, parse_argsB rawB = none → (scriptB rawB env fs0).1 = 2) ∧
    (∀ rawA, (scriptA rawA env fs0).1 = 0 ∨ (scriptA rawA env fs0).1 = 2) ∧
    (∀ rawB, (scriptB rawB env fs0).1 = 0 ∨ (scriptB rawB env fs0).1 = 2) := by
  refine ⟨?_, ?_, ?_, ?_, ?_, ?_⟩
  · intro raw args h; simp [scriptA, h]
  · intro raw args h; simp [scriptB, h]
  · intro raw h; simp [scriptA, h]
  · intro raw h; simp [scriptB, h]
  · intro raw
    cases h : parse_argsA raw with
    | none => right; simp [scriptA, h]
    | some args => left; simp [scriptA, h]
  · intro raw
    cases h : parse_argsB raw with
    | none => right; simp [scriptB, h]
    | some args => left; simp [scriptB, h]

/-- Witness for C9's amended claim: a valid invocation of script A exits 0
even with the library unavailable, and the `--type bogus` invocation
exits 2. -/
theorem claim_C9_exit_codes_witness :
    (scriptA ⟨some "all", some "png", none⟩ (Env.mk false (fun _ => none)) []).1 = 0 ∧
    (scriptA ⟨some "bogus", none, none⟩ (Env.mk false (fun _ => none)) []).1 = 2 := by
  have h := claim_C9_exit_codes (Env.mk false (fun _ => none)) []
  refine ⟨h.1 ⟨some "all", some "png", none⟩ ⟨"all", "png", none⟩ rfl, ?_⟩
  exact h.2.2.1 ⟨some "bogus", none, none⟩ rfl

/-- C10: constructing either generator creates the output directory and all
its missing ancestors as a side effect of construction itself (no diagram
method involved, no rendering-environment input), preserves every existing
directory, and constructing a second generator over the resulting
filesystem with the same path changes nothing; the operation is total —
it raises no error. -/
theorem claim_C10_mkdir (fs : List (List String)) (dir : List String)
    (fmtA fmtB dl : String) (hdir : dir ≠ []) :
    dir ∈ (C4DiagramGenerator.init fs dir fmtA).fs ∧
    (∀ i, i < dir.length → dir.take (i + 1) ∈ (C4DiagramGenerator.init fs dir fmtA).fs) ∧
    (∀ x ∈ fs, x ∈ (C4DiagramGenerator.init fs dir fmtA).fs) ∧
    (C4DiagramGenerator.init (C4DiagramGenerator.init fs dir fmtA).fs dir fmtA).fs =
      (C4DiagramGenerator.init fs dir fmtA).fs ∧
    dir ∈ (PortInterfaceDiagramGenerator.init fs dir fmtB dl).fs ∧
    (∀ i, i < dir.length →
      dir.take (i + 1) ∈ (PortInterfaceDiagramGenerator.init fs dir fmtB dl).fs) ∧
    (∀ x ∈ fs, x ∈ (PortInterfaceDiagramGenerator.init fs dir fmtB dl).fs) ∧
    (PortInterfaceDiagramGenerator.init
        (PortInterfaceDiagramGenerator.init fs dir fmtB dl).fs dir fmtB dl).fs =
      (PortInterfaceDiagramGenerator.init fs dir fmtB dl).fs := by
  have hlen : 0 < dir.length := List.length_pos.mpr hdir
  have hdmem : dir ∈ prefixes dir := by
    simp only [prefixes, List.mem_map, List.mem_range]
    exact ⟨dir.length - 1, by omega, by rw [Nat.sub_add_cancel hlen, List.take_length]⟩
  have hpref : ∀ i, i < dir.length → dir.take (i + 1) ∈ prefixes dir := by
    intro i hi
    simp only [prefixes, List.mem_map, List.mem_range]
    exact ⟨i, hi, rfl⟩
  refine ⟨?_, ?_, ?_, ?_, ?_, ?_, ?_, ?_⟩
  · exact prefix_mem_mkdir_parents fs dir dir hdmem
  · exact fun i hi => prefix_mem_mkdir_parents fs dir _ (hpref i hi)
  · exact fun x hx => mem_mkdir_parents_of_mem fs dir x hx
  · exact mkdir_parents_idem fs dir
  · exact prefix_mem_mkdir_parents fs dir dir hdmem
  · exact fun i hi => prefix_mem_mkdir_parents fs dir _ (hpref i hi)
  · exact fun x hx => mem_mkdir_parents_of_mem fs dir x hx
  · exact mkdir_parents_idem fs dir

/-- Witness for C10: constructing over an empty filesystem creates
`docs/diagrams` and its ancestor, and a second construction is a no-op. -/
theorem claim_C10_mkdir_witness :
    (["docs", "diagrams"] : List String) ≠ [] ∧
    ["docs", "diagrams"] ∈ (C4DiagramGenerator.init [] ["docs", "diagrams"] "png").fs ∧
    (C4DiagramGenerator.init (C4DiagramGenerator.init [] ["docs", "diagrams"] "png").fs
        ["docs", "diagrams"] "png").fs =
      (C4DiagramGenerator.init [] ["docs", "diagrams"] "png").fs :=
  ⟨by decide,
   (claim_C10_mkdir [] ["docs", "diagrams"] "png" "svg" "medium" (by decide)).1,
   (claim_C10_mkdir [] ["docs", "diagrams"] "png" "svg" "medium" (by decide)).2.2.2.1⟩

end Samstraumr
